import Mathlib

/-!
Verification of the network provisioning manager (`network_provisioning`
component). The repository ships only the public header
`network_provisioning/manager.h`; the implementation file is not part of the
sources, so the operational behaviour below is modelled from the
specification and from the contracts stated in the header's documentation
comments. Machine states, signals, error codes and every manager operation
are embedded as plain executable Lean definitions, and the properties are
proved about runs of the resulting step function.
-/

/-- Modelled from the spec: lifecycle phases of the session state machine
(§4.1). `Starting`/`Stopping` are transient inside a call and the
`Deinitialized` terminal state behaves exactly like `Uninitialized` (only
`init` is accepted), so the persistent phases are the four below. -/
inductive Phase
  | Uninitialized
  | Idle
  | Active
  | StoppingDeferred
deriving DecidableEq, Repr

/-- Modelled from the spec: per-network-type credential status
(NetworkCredentialStatus, §3): not-received, applied,
connection-failed(reason), connected. -/
inductive CredState
  | NotReceived
  | Applied
  | ConnFailed
  | Connected
deriving DecidableEq, Repr

/-- Modelled from the spec: the error taxonomy of §7 restricted to the codes
the manager operations return synchronously. -/
inductive Err
  | InvalidState
  | AlreadyInitialized
  | TransportFailure
  | AlreadyExists
  | NotFound
  | AlreadyBound
  | OpFailed
deriving DecidableEq, Repr

/-- Lifecycle signals emitted by the manager, from `network_prov_cb_event_t`
in `manager.h` (Wi-Fi network type): INIT, START, credential-received,
credential-fail, credential-success, END, DEINIT. -/
inductive Signal
  | INIT
  | START
  | CRED_RECV
  | CRED_FAIL
  | CRED_SUCCESS
  | END
  | DEINIT
deriving DecidableEq, Repr

/-- Modelled from the spec: the scheme capability set (§4.2,
`network_prov_scheme_t`). Only the outcomes of the transport capabilities
matter to the manager's state machine, so `prov_start`/`prov_stop` are
embedded by their success flags. -/
structure Scheme where
  startOk : Bool
  stopOk : Bool
deriving DecidableEq, Repr

/-- Modelled from the spec: the manager singleton state (ManagerState, §3):
lifecycle phase, the bound scheme, auto-stop configuration, per-type
credential status, the endpoint registry (created slots with their UUIDs,
and the names currently bound to handlers), the next UUID to allocate for
an application endpoint, whether the deferred-stop timer is armed, and the
recorded provision state persisted by the network stack. -/
structure Mgr where
  phase : Phase
  scheme : Scheme
  autoStopDisabled : Bool
  cleanupDelay : Nat
  credStatus : CredState
  created : List (String × Nat)
  bound : List String
  nextUuid : Nat
  timerArmed : Bool
  provisioned : Bool
deriving DecidableEq, Repr

/-- Base UUID for application-created endpoints, from the documentation of
`network_prov_mgr_endpoint_create`: additional endpoints are assigned UUIDs
starting from 0xFF54 in order of execution. -/
def appUuidBase : Nat := 0xFF54

/-- A manager slot before initialization: no session, default cleanup delay
of 1000 ms, no endpoints, application UUIDs start at `appUuidBase`. The
provision state `pv` lives in the network stack's storage, outside the
manager, so it survives init/deinit. -/
def initialMgr (sch : Scheme) (pv : Bool) : Mgr :=
  { phase := .Uninitialized
    scheme := sch
    autoStopDisabled := false
    cleanupDelay := 1000
    credStatus := .NotReceived
    created := []
    bound := []
    nextUuid := appUuidBase
    timerArmed := false
    provisioned := pv }

instance : DecidableEq (Except Err Unit) := fun x y =>
  match x, y with
  | .ok u, .ok v => isTrue (by cases u; cases v; rfl)
  | .error a, .error b =>
    if h : a = b then isTrue (by rw [h])
    else isFalse (by intro hc; cases hc; exact h rfl)
  | .ok _, .error _ => isFalse (by intro hc; cases hc)
  | .error _, .ok _ => isFalse (by intro hc; cases hc)

/-- Result of a manager call that returns a status code and may emit
lifecycle signals. -/
structure StepOut where
  res : Except Err Unit
  mgr : Mgr
  sigs : List Signal
deriving DecidableEq, Repr

/-- Modelled from the spec: `network_prov_mgr_init` (§4.1 initialize).
Fails if a live instance already exists; otherwise constructs the fresh
singleton, moves to `Idle` and emits INIT exactly once. -/
def network_prov_mgr_init (m : Mgr) : StepOut :=
  if m.phase = .Uninitialized then
    ⟨.ok (), { initialMgr m.scheme m.provisioned with phase := .Idle }, [.INIT]⟩
  else
    ⟨.error .AlreadyInitialized, m, []⟩

/-- Modelled from the spec: `network_prov_mgr_start_provisioning` (§4.1
start). Fails with InvalidState unless currently `Idle` (header: manager
not initialized or already started); a failure of the scheme's start
capability aborts the transition and leaves the state at `Idle`
(TransportFailure); on success moves `Idle → Active`, emits START exactly
once, resets the credential status to not-received and resets the recorded
provision state irrespective of its previous value (header note on
`network_prov_mgr_is_wifi_provisioned`). -/
def network_prov_mgr_start_provisioning (m : Mgr) : StepOut :=
  if m.phase = .Idle then
    if m.scheme.startOk then
      ⟨.ok (),
        { m with phase := .Active, credStatus := .NotReceived,
                 provisioned := false, bound := [] },
        [.START]⟩
    else
      ⟨.error .TransportFailure, m, []⟩
  else
    ⟨.error .InvalidState, m, []⟩

/-- Modelled from the spec: `network_prov_mgr_stop_provisioning` (§4.1
stop). A no-op unless `Active`/`StoppingDeferred`; from `Active` it arms
the deferred teardown and returns immediately; calling it again while
`StoppingDeferred` is a no-op that does not reset the timer (§5
Cancellation). The END signal is emitted later, when the teardown runs. -/
def network_prov_mgr_stop_provisioning (m : Mgr) : Mgr × List Signal :=
  if m.phase = .Active then
    ({ m with phase := .StoppingDeferred, timerArmed := true }, [])
  else
    (m, [])

/-- Modelled from the spec: the StopTimer firing (§3 StopTimer, §4.1 stop).
When the armed deferred teardown runs, the scheme is stopped, all endpoint
bindings are cleared, the state returns to `Idle` and END is emitted
exactly once. -/
def stopTimerFire (m : Mgr) : Mgr × List Signal :=
  if m.phase = .StoppingDeferred ∧ m.timerArmed = true then
    ({ m with phase := .Idle, timerArmed := false, bound := [] }, [.END])
  else
    (m, [])

/-- Modelled from the spec: `network_prov_mgr_deinit` (§4.1 deinit). If a
session is live it performs an implicit stop first, emitting END, then
releases the singleton and emits DEINIT exactly once; a no-op when not
initialized. -/
def network_prov_mgr_deinit (m : Mgr) : Mgr × List Signal :=
  match m.phase with
  | .Uninitialized => (m, [])
  | .Idle => (initialMgr m.scheme m.provisioned, [.DEINIT])
  | .Active => (initialMgr m.scheme m.provisioned, [.END, .DEINIT])
  | .StoppingDeferred => (initialMgr m.scheme m.provisioned, [.END, .DEINIT])

/-- Modelled from the spec: `network_prov_mgr_configure_wifi_sta` /
applyCredential (§4.1, §4.4). Fails with InvalidState unless a session is
`Active` and the credential slot is free (a failed or unresolved attempt
must first go through a reset call, §4.4); on success marks the status
applied and emits the credential-received signal. -/
def network_prov_mgr_configure_wifi_sta (m : Mgr) : StepOut :=
  if m.phase = .Active ∧ m.credStatus = .NotReceived then
    ⟨.ok (), { m with credStatus := .Applied }, [.CRED_RECV]⟩
  else
    ⟨.error .InvalidState, m, []⟩

/-- Modelled from the spec: the asynchronous connectivity observer (§4.4).
Once a credential has been applied, the network stack later reports the
outcome; the manager records connected / connection-failed and emits the
corresponding signal at most once per application attempt. On success with
auto-stop enabled, the manager triggers the internal stop, arming the
deferred teardown. -/
def networkConnOutcome (ok : Bool) (m : Mgr) : Mgr × List Signal :=
  if (m.phase = .Active ∨ m.phase = .StoppingDeferred) ∧ m.credStatus = .Applied then
    if ok then
      if m.autoStopDisabled = true ∨ m.phase = .StoppingDeferred then
        ({ m with credStatus := .Connected, provisioned := true }, [.CRED_SUCCESS])
      else
        ({ m with credStatus := .Connected, provisioned := true,
                  phase := .StoppingDeferred, timerArmed := true }, [.CRED_SUCCESS])
    else
      ({ m with credStatus := .ConnFailed }, [.CRED_FAIL])
  else
    (m, [])

/-- Modelled from the spec: `network_prov_mgr_reset_wifi_sm_state_on_failure`
(§4.4 resetOnFailure). InvalidState when the manager is not initialized
(header); allowed only when the status is connection-failed or
applied-but-unresolved, clearing it to not-received so a new credential can
be applied without restarting the session. -/
def network_prov_mgr_reset_wifi_sm_state_on_failure (m : Mgr) :
    Except Err Unit × Mgr :=
  if m.phase = .Uninitialized then
    (.error .InvalidState, m)
  else if m.credStatus = .ConnFailed ∨ m.credStatus = .Applied then
    (.ok (), { m with credStatus := .NotReceived })
  else
    (.error .OpFailed, m)

/-- Modelled from the spec:
`network_prov_mgr_reset_wifi_sm_state_for_reprovision` (§4.4
resetForReprovision). InvalidState when the manager is not initialized
(header); allowed only when auto-stop has been disabled and a session is
`Active`/`StoppingDeferred`, clearing the status while keeping the
transport alive. -/
def network_prov_mgr_reset_wifi_sm_state_for_reprovision (m : Mgr) :
    Except Err Unit × Mgr :=
  if m.phase = .Uninitialized then
    (.error .InvalidState, m)
  else if m.autoStopDisabled = true ∧ (m.phase = .Active ∨ m.phase = .StoppingDeferred) then
    (.ok (), { m with credStatus := .NotReceived })
  else
    (.error .InvalidState, m)

/-- Modelled from the spec: `network_prov_mgr_disable_auto_stop` (§3
StopTimer, header). Must be called strictly before start: fails with
InvalidState unless the manager is initialized and no session has started
(state `Idle`). The accepted cleanup delay is bounded to [100 ms, 30000 ms]
and defaults to 1000 ms when no valid value is specified. -/
def network_prov_mgr_disable_auto_stop (m : Mgr) (cleanup_delay : Nat) :
    Except Err Unit × Mgr :=
  if m.phase = .Idle then
    let d := if cleanup_delay < 100 then 1000 else min cleanup_delay 30000
    (.ok (), { m with autoStopDisabled := true, cleanupDelay := d })
  else
    (.error .InvalidState, m)

/-- Modelled from the spec: `network_prov_mgr_endpoint_create` (§4.3
create). Allowed only before the session starts (state `Idle`); fails with
AlreadyExists on a duplicate name; otherwise reserves the slot and assigns
the next application UUID, counting up from `appUuidBase` in order of
creation. -/
def network_prov_mgr_endpoint_create (m : Mgr) (ep_name : String) :
    Except Err Unit × Mgr :=
  if m.phase = .Idle then
    if ep_name ∈ m.created.map Prod.fst then
      (.error .AlreadyExists, m)
    else
      (.ok (), { m with created := m.created ++ [(ep_name, m.nextUuid)],
                        nextUuid := m.nextUuid + 1 })
  else
    (.error .InvalidState, m)

/-- Modelled from the spec: `network_prov_mgr_endpoint_register` (§4.3
register). Allowed only while `Active` (after start); fails with NotFound
when the name was never created and with AlreadyBound when a handler is
already registered. -/
def network_prov_mgr_endpoint_register (m : Mgr) (ep_name : String) :
    Except Err Unit × Mgr :=
  if m.phase = .Active then
    if ep_name ∈ m.created.map Prod.fst then
      if ep_name ∈ m.bound then
        (.error .AlreadyBound, m)
      else
        (.ok (), { m with bound := ep_name :: m.bound })
    else
      (.error .NotFound, m)
  else
    (.error .InvalidState, m)

/-- Modelled from the spec: `network_prov_mgr_is_wifi_provisioned` — yields
the provision state recorded in the network stack's storage, regardless of
whether credentials arrived through provisioning or were written directly. -/
def network_prov_mgr_is_wifi_provisioned (m : Mgr) : Bool :=
  m.provisioned

/-- The calls and environment events that can act on the manager: the public
API calls of `manager.h`, the asynchronous connectivity outcome reported by
the network stack, and the firing of the armed deferred-stop timer. -/
inductive Act
  | init
  | start
  | applyCred
  | connOk
  | connFail
  | stop
  | timerFire
  | resetOnFailure
  | resetForReprovision
  | disableAutoStop (d : Nat)
  | epCreate (n : String)
  | epRegister (n : String)
  | deinit
deriving DecidableEq, Repr

/-- One step of the manager: dispatch an action to the corresponding
operation, collecting the status code, the new state and the emitted
signals. Actions that are environment events or void calls always report
success. -/
def stepAct (m : Mgr) : Act → StepOut
  | .init => network_prov_mgr_init m
  | .start => network_prov_mgr_start_provisioning m
  | .applyCred => network_prov_mgr_configure_wifi_sta m
  | .connOk =>
    let p := networkConnOutcome true m
    ⟨.ok (), p.1, p.2⟩
  | .connFail =>
    let p := networkConnOutcome false m
    ⟨.ok (), p.1, p.2⟩
  | .stop =>
    let p := network_prov_mgr_stop_provisioning m
    ⟨.ok (), p.1, p.2⟩
  | .timerFire =>
    let p := stopTimerFire m
    ⟨.ok (), p.1, p.2⟩
  | .resetOnFailure =>
    let p := network_prov_mgr_reset_wifi_sm_state_on_failure m
    ⟨p.1, p.2, []⟩
  | .resetForReprovision =>
    let p := network_prov_mgr_reset_wifi_sm_state_for_reprovision m
    ⟨p.1, p.2, []⟩
  | .disableAutoStop d =>
    let p := network_prov_mgr_disable_auto_stop m d
    ⟨p.1, p.2, []⟩
  | .epCreate n =>
    let p := network_prov_mgr_endpoint_create m n
    ⟨p.1, p.2, []⟩
  | .epRegister n =>
    let p := network_prov_mgr_endpoint_register m n
    ⟨p.1, p.2, []⟩
  | .deinit =>
    let p := network_prov_mgr_deinit m
    ⟨.ok (), p.1, p.2⟩

/-- Run a sequence of actions, returning the final state and the
concatenation of all emitted signals in order. -/
def runActs (m : Mgr) : List Act → Mgr × List Signal
  | [] => (m, [])
  | a :: rest =>
    let o := stepAct m a
    let r := runActs o.mgr rest
    (r.1, o.sigs ++ r.2)

/-- True when every call in the sequence reports success: the sequence is a
valid call sequence for the current state. -/
def runAllOk (m : Mgr) : List Act → Bool
  | [] => true
  | a :: rest =>
    match stepAct m a with
    | ⟨.ok _, m', _⟩ => runAllOk m' rest
    | ⟨.error _, _, _⟩ => false

/-- States of the signal-order automaton: outside an init-to-deinit stretch,
inside a stretch but between sessions, or inside a provisioning session. -/
inductive TState
  | Outside
  | Ready
  | InSession
deriving DecidableEq, Repr

/-- Transition relation of the signal-order automaton for the pattern
INIT (START \x7breceived, fail, success\x7d* END)* DEINIT per stretch:
INIT and DEINIT each occur exactly once per stretch, START/END may repeat,
and credential signals occur only inside a session. -/
def traceStep : TState → Signal → Option TState
  | .Outside, .INIT => some .Ready
  | .Ready, .START => some .InSession
  | .Ready, .DEINIT => some .Outside
  | .InSession, .CRED_RECV => some .InSession
  | .InSession, .CRED_FAIL => some .InSession
  | .InSession, .CRED_SUCCESS => some .InSession
  | .InSession, .END => some .Ready
  | _, _ => none

/-- Run the signal-order automaton over a signal word. -/
def traceRun (q : TState) : List Signal → Option TState
  | [] => some q
  | s :: rest =>
    match traceStep q s with
    | some q' => traceRun q' rest
    | none => none

/-- A signal word respects the (amended) ordering guarantee when the
automaton never gets stuck reading it from the outside state. -/
def goodTrace (sigs : List Signal) : Bool :=
  (traceRun .Outside sigs).isSome

/-- States of the strict-order automaton for the literal pattern
INIT (START received* (fail|success)* END)* DEINIT: inside a session, once
an outcome signal has been seen, no further received signal is allowed. -/
inductive SState
  | Out
  | Rdy
  | Recv
  | Outcome
deriving DecidableEq, Repr

/-- Transition relation of the strict-order automaton: within a session all
credential-received signals must precede every fail/success signal. -/
def strictStep : SState → Signal → Option SState
  | .Out, .INIT => some .Rdy
  | .Rdy, .START => some .Recv
  | .Rdy, .DEINIT => some .Out
  | .Recv, .CRED_RECV => some .Recv
  | .Recv, .CRED_FAIL => some .Outcome
  | .Recv, .CRED_SUCCESS => some .Outcome
  | .Recv, .END => some .Rdy
  | .Outcome, .CRED_FAIL => some .Outcome
  | .Outcome, .CRED_SUCCESS => some .Outcome
  | .Outcome, .END => some .Rdy
  | _, _ => none

/-- Run the strict-order automaton over a signal word. -/
def strictRun (q : SState) : List Signal → Option SState
  | [] => some q
  | s :: rest =>
    match strictStep q s with
    | some q' => strictRun q' rest
    | none => none

/-- A signal word matches the claim's literal pattern when the strict
automaton never gets stuck reading it from the outside state. -/
def strictTrace (sigs : List Signal) : Bool :=
  (strictRun .Out sigs).isSome

/-- The automaton state corresponding to each lifecycle phase. -/
def phaseT : Phase → TState
  | .Uninitialized => .Outside
  | .Idle => .Ready
  | .Active => .InSession
  | .StoppingDeferred => .InSession

/-- Sequence of valid calls whose signal word violates the strict pattern:
after a connection failure the application resets the failed attempt and
applies a fresh credential, so a credential-received signal follows a
credential-fail signal within one session. -/
def strictCexActs : List Act :=
  [.init, .start, .applyCred, .connFail, .resetOnFailure, .applyCred, .connOk,
   .timerFire, .deinit]

/-- True on the transitions the credential status may take going forward:
staying put, not-received to applied, or applied to one of the two
outcomes. -/
def credForward (a b : CredState) : Bool :=
  a == b || (a == .NotReceived && b == .Applied) ||
    (a == .Applied && (b == .Connected || b == .ConnFailed))

/-- The actions that may legitimately clear the credential status back to
not-received: starting a new session, or one of the two explicit reset
calls. -/
def isResetAct : Act → Bool
  | .start => true
  | .resetOnFailure => true
  | .resetForReprovision => true
  | _ => false

/-- An active session under the default auto-stop configuration whose
credential attempt failed: the canonical state for reset-on-failure. -/
def mgrFailDemo : Mgr :=
  { initialMgr ⟨true, true⟩ false with
      phase := .Active, credStatus := .ConnFailed }

/-- An active session that provisioned successfully with auto-stop
disabled: the canonical state for reset-for-reprovision. -/
def mgrReprovDemo : Mgr :=
  { initialMgr ⟨true, true⟩ false with
      phase := .Active, credStatus := .Connected, autoStopDisabled := true }

/-- An initialized manager with an active provisioning session. -/
def mgrActive : Mgr := { initialMgr ⟨true, true⟩ false with phase := .Active }

/-- An initialized manager with no session running. -/
def mgrIdle : Mgr := { initialMgr ⟨true, true⟩ false with phase := .Idle }

/-- An active session with one created endpoint whose handler is already
bound. -/
def mgrBound : Mgr :=
  { initialMgr ⟨true, true⟩ false with
      phase := .Active, created := [("app", appUuidBase)], bound := ["app"] }

/-- The manager right after a successful `network_prov_mgr_init`. -/
def freshMgr (sch : Scheme) (pv : Bool) : Mgr :=
  (network_prov_mgr_init (initialMgr sch pv)).mgr

/-- Create a sequence of application endpoints in the given order. -/
def createAll (m : Mgr) : List String → Mgr
  | [] => m
  | n :: rest => createAll (network_prov_mgr_endpoint_create m n).2 rest

/-- The endpoint slots that creating the given names in order produces,
with UUIDs counting up from `u`. -/
def assignFrom (u : Nat) : List String → List (String × Nat)
  | [] => []
  | n :: rest => (n, u) :: assignFrom (u + 1) rest

theorem traceRun_append (q : TState) (xs ys : List Signal) :
    traceRun q (xs ++ ys) = (traceRun q xs).bind (fun q' => traceRun q' ys) := by
  induction xs generalizing q with
  | nil => simp [traceRun]
  | cons s rest ih =>
    simp only [List.cons_append, traceRun]
    cases traceStep q s with
    | none => simp
    | some q' => simpa using ih q'

theorem stepAct_trace (m : Mgr) (a : Act) :
    traceRun (phaseT m.phase) (stepAct m a).sigs
      = some (phaseT (stepAct m a).mgr.phase) := by
  obtain ⟨ph, ⟨so, sto⟩, asd, cd, cs, cr, bd, nu, ta, pv⟩ := m
  cases a <;> cases ph <;> cases cs <;> cases so <;> cases asd <;> cases ta <;>
    first
    | rfl
    | (simp only [stepAct, network_prov_mgr_endpoint_create,
         network_prov_mgr_endpoint_register]
       split <;> (try split) <;> (try split) <;> rfl)

theorem runActs_trace (as : List Act) : ∀ m : Mgr,
    traceRun (phaseT m.phase) (runActs m as).2
      = some (phaseT (runActs m as).1.phase) := by
  induction as with
  | nil => intro m; rfl
  | cons a rest ih =>
    intro m
    simp only [runActs]
    rw [traceRun_append, stepAct_trace]
    simpa using ih (stepAct m a).mgr

/-- C1 (counterexample to the claim as stated): a valid call sequence — every
call succeeds, and the emitted word INIT, START, received, fail, received,
success, END, DEINIT is a legal lifecycle trace — whose signals do not
match the literal pattern INIT, START, (received)*, (fail | success)*, END,
DEINIT, because a received signal follows a fail signal inside one session. -/
theorem prov_signal_strict_order_counterexample :
    runAllOk (initialMgr ⟨true, true⟩ false) strictCexActs = true ∧
    goodTrace (runActs (initialMgr ⟨true, true⟩ false) strictCexActs).2 = true ∧
    strictTrace (runActs (initialMgr ⟨true, true⟩ false) strictCexActs).2 = false := by
  decide

/-- C1 (amended): for every sequence of actions on a fresh manager, the
lifecycle signals are emitted in the order INIT, START,
(received | fail | success)*, END, DEINIT; within one initialize-to-deinit
stretch INIT and DEINIT each fire exactly once, START/END may repeat across
successive sessions, and credential signals occur only between START and
END. -/
theorem prov_signal_order (sch : Scheme) (pv : Bool) (as : List Act) :
    goodTrace (runActs (initialMgr sch pv) as).2 = true := by
  have h' : traceRun TState.Outside (runActs (initialMgr sch pv) as).2
      = some (phaseT (runActs (initialMgr sch pv) as).1.phase) :=
    runActs_trace as (initialMgr sch pv)
  simp [goodTrace, h']

/-- C2: whenever the manager is not initialized or a session is already
active, `network_prov_mgr_start_provisioning` fails with InvalidState,
emits nothing and leaves the manager state unchanged. -/
theorem start_invalid_state (m : Mgr)
    (h : m.phase = .Uninitialized ∨ m.phase = .Active) :
    network_prov_mgr_start_provisioning m = ⟨.error .InvalidState, m, []⟩ := by
  rcases h with h | h <;> simp [network_prov_mgr_start_provisioning, h]

theorem start_invalid_state_witness :
    network_prov_mgr_start_provisioning (initialMgr ⟨true, true⟩ false)
      = ⟨.error .InvalidState, initialMgr ⟨true, true⟩ false, []⟩ :=
  start_invalid_state (initialMgr ⟨true, true⟩ false) (Or.inl rfl)

/-- C3: when the scheme's start capability fails, a start call from `Idle`
returns TransportFailure, leaves the manager at `Idle` unchanged and emits
no START signal. -/
theorem start_transport_failure (m : Mgr)
    (h1 : m.phase = .Idle) (h2 : m.scheme.startOk = false) :
    network_prov_mgr_start_provisioning m = ⟨.error .TransportFailure, m, []⟩ := by
  simp [network_prov_mgr_start_provisioning, h1, h2]

/-- C4: while the manager is in `StoppingDeferred` with the teardown armed,
a stop call is a no-op that does not change the state (in particular it
does not reset the armed timer), a second stop call is equally a no-op, and
running the two stop calls followed by the timer (fired once armed, inert
afterwards) emits the END signal exactly once. -/
theorem stop_twice_single_teardown (m : Mgr)
    (h1 : m.phase = .StoppingDeferred) (h2 : m.timerArmed = true) :
    network_prov_mgr_stop_provisioning m = (m, []) ∧
    (runActs m [.stop, .stop, .timerFire, .timerFire]).2 = [.END] := by
  constructor
  · simp [network_prov_mgr_stop_provisioning, h1]
  · simp [runActs, stepAct, network_prov_mgr_stop_provisioning, stopTimerFire,
      h1, h2]

theorem stop_twice_single_teardown_witness :
    network_prov_mgr_stop_provisioning
        { initialMgr ⟨true, true⟩ false with
            phase := .StoppingDeferred, timerArmed := true }
      = ({ initialMgr ⟨true, true⟩ false with
            phase := .StoppingDeferred, timerArmed := true }, []) ∧
    (runActs
        { initialMgr ⟨true, true⟩ false with
            phase := .StoppingDeferred, timerArmed := true }
        [.stop, .stop, .timerFire, .timerFire]).2 = [.END] :=
  stop_twice_single_teardown
    { initialMgr ⟨true, true⟩ false with
        phase := .StoppingDeferred, timerArmed := true } rfl rfl

/-- C5: within the lifetime of one manager instance (the instance-boundary
actions init and deinit excluded), every step either moves the credential
status forward along not-received → applied → \x7bconnected,
connection-failed\x7d or leaves it unchanged, and any step that sets it
back to not-received is a new session start or an explicit
reset-on-failure / reset-for-reprovision call. -/
theorem cred_status_monotone (m : Mgr) (a : Act)
    (h1 : a ≠ .init) (h2 : a ≠ .deinit) :
    credForward m.credStatus (stepAct m a).mgr.credStatus = true ∨
    ((stepAct m a).mgr.credStatus = .NotReceived ∧ isResetAct a = true) := by
  obtain ⟨ph, ⟨so, sto⟩, asd, cd, cs, cr, bd, nu, ta, pv⟩ := m
  cases a <;>
    first
    | exact absurd rfl h1
    | exact absurd rfl h2
    | (cases ph <;> cases cs <;> cases so <;> cases asd <;> cases ta <;>
        first
        | (left; rfl)
        | (right; exact ⟨rfl, rfl⟩))
    | (left
       simp only [stepAct, network_prov_mgr_endpoint_create,
         network_prov_mgr_endpoint_register, network_prov_mgr_disable_auto_stop]
       split <;> (try split) <;> (try split) <;> cases cs <;> rfl)

theorem cred_status_monotone_witness :
    credForward
        ({ initialMgr ⟨true, true⟩ false with
            phase := .Active, credStatus := .Applied } : Mgr).credStatus
        (stepAct
          { initialMgr ⟨true, true⟩ false with
              phase := .Active, credStatus := .Applied } .connOk).mgr.credStatus
      = true ∨
    ((stepAct
        { initialMgr ⟨true, true⟩ false with
            phase := .Active, credStatus := .Applied } .connOk).mgr.credStatus
        = .NotReceived ∧ isResetAct .connOk = true) :=
  cred_status_monotone
    { initialMgr ⟨true, true⟩ false with
        phase := .Active, credStatus := .Applied } .connOk
    (by decide) (by decide)

/-- C6: every credential status reset performed via reset-on-failure, and
independently every one performed via reset-for-reprovision, returns the
status to not-received while preserving the session phase, and — when the
session is active — a subsequent credential application succeeds and moves
the status to applied without any new start call in between; a successful
reset-for-reprovision moreover forces auto-stop to have been disabled. -/
theorem reset_returns_not_received (m : Mgr) :
    (∀ m1 : Mgr, network_prov_mgr_reset_wifi_sm_state_on_failure m = (.ok (), m1) →
       m1.credStatus = .NotReceived ∧ m1.phase = m.phase ∧
       (m.phase = .Active →
         network_prov_mgr_configure_wifi_sta m1
           = ⟨.ok (), { m1 with credStatus := .Applied }, [.CRED_RECV]⟩)) ∧
    (∀ m2 : Mgr, network_prov_mgr_reset_wifi_sm_state_for_reprovision m = (.ok (), m2) →
       m.autoStopDisabled = true ∧
       m2.credStatus = .NotReceived ∧ m2.phase = m.phase ∧
       (m.phase = .Active →
         network_prov_mgr_configure_wifi_sta m2
           = ⟨.ok (), { m2 with credStatus := .Applied }, [.CRED_RECV]⟩)) := by
  constructor
  · intro m1 h1
    unfold network_prov_mgr_reset_wifi_sm_state_on_failure at h1
    split at h1
    case isTrue => simp at h1
    case isFalse =>
      split at h1
      case isFalse => simp at h1
      case isTrue hcs =>
        have hm1 : ({ m with credStatus := CredState.NotReceived } : Mgr) = m1 :=
          congrArg Prod.snd h1
        subst hm1
        refine ⟨rfl, rfl, ?_⟩
        intro hA
        simp [network_prov_mgr_configure_wifi_sta, hA]
  · intro m2 h2
    unfold network_prov_mgr_reset_wifi_sm_state_for_reprovision at h2
    split at h2
    case isTrue => simp at h2
    case isFalse =>
      split at h2
      case isFalse => simp at h2
      case isTrue hc =>
        have hm2 : ({ m with credStatus := CredState.NotReceived } : Mgr) = m2 :=
          congrArg Prod.snd h2
        subst hm2
        refine ⟨hc.1, rfl, rfl, ?_⟩
        intro hA
        simp [network_prov_mgr_configure_wifi_sta, hA]

theorem reset_returns_not_received_witness :
    ((network_prov_mgr_reset_wifi_sm_state_on_failure mgrFailDemo).2.credStatus
        = .NotReceived ∧
      network_prov_mgr_configure_wifi_sta
          (network_prov_mgr_reset_wifi_sm_state_on_failure mgrFailDemo).2
        = ⟨.ok (),
           { (network_prov_mgr_reset_wifi_sm_state_on_failure mgrFailDemo).2 with
               credStatus := .Applied }, [.CRED_RECV]⟩) ∧
    (mgrReprovDemo.autoStopDisabled = true ∧
      (network_prov_mgr_reset_wifi_sm_state_for_reprovision
          mgrReprovDemo).2.credStatus = .NotReceived ∧
      network_prov_mgr_configure_wifi_sta
          (network_prov_mgr_reset_wifi_sm_state_for_reprovision mgrReprovDemo).2
        = ⟨.ok (),
           { (network_prov_mgr_reset_wifi_sm_state_for_reprovision
                mgrReprovDemo).2 with
               credStatus := .Applied }, [.CRED_RECV]⟩) :=
  ⟨⟨((reset_returns_not_received mgrFailDemo).1
        (network_prov_mgr_reset_wifi_sm_state_on_failure mgrFailDemo).2
        (by decide)).1,
    ((reset_returns_not_received mgrFailDemo).1
        (network_prov_mgr_reset_wifi_sm_state_on_failure mgrFailDemo).2
        (by decide)).2.2 rfl⟩,
   ⟨((reset_returns_not_received mgrReprovDemo).2
        (network_prov_mgr_reset_wifi_sm_state_for_reprovision mgrReprovDemo).2
        (by decide)).1,
    ((reset_returns_not_received mgrReprovDemo).2
        (network_prov_mgr_reset_wifi_sm_state_for_reprovision mgrReprovDemo).2
        (by decide)).2.1,
    ((reset_returns_not_received mgrReprovDemo).2
        (network_prov_mgr_reset_wifi_sm_state_for_reprovision mgrReprovDemo).2
        (by decide)).2.2.2 rfl⟩⟩

theorem start_transport_failure_witness :
    network_prov_mgr_start_provisioning
        { initialMgr ⟨false, true⟩ false with phase := .Idle }
      = ⟨.error .TransportFailure,
         { initialMgr ⟨false, true⟩ false with phase := .Idle }, []⟩ :=
  start_transport_failure { initialMgr ⟨false, true⟩ false with phase := .Idle }
    rfl rfl

/-- C7: an endpoint create issued after the session has started (state
`Active` or `StoppingDeferred`) always fails and changes nothing; an
endpoint register issued before the session has started (state
`Uninitialized` or `Idle`) always fails and changes nothing; while the
session is active, register fails with NotFound when the name was never
created and with AlreadyBound when the name is already bound. -/
theorem endpoint_phase_rules (m : Mgr) (n : String) :
    ((m.phase = .Active ∨ m.phase = .StoppingDeferred) →
       network_prov_mgr_endpoint_create m n = (.error .InvalidState, m)) ∧
    ((m.phase = .Uninitialized ∨ m.phase = .Idle) →
       network_prov_mgr_endpoint_register m n = (.error .InvalidState, m)) ∧
    (m.phase = .Active → n ∉ m.created.map Prod.fst →
       network_prov_mgr_endpoint_register m n = (.error .NotFound, m)) ∧
    (m.phase = .Active → n ∈ m.created.map Prod.fst → n ∈ m.bound →
       network_prov_mgr_endpoint_register m n = (.error .AlreadyBound, m)) := by
  refine ⟨?_, ?_, ?_, ?_⟩
  · rintro (h | h) <;> simp [network_prov_mgr_endpoint_create, h]
  · rintro (h | h) <;> simp [network_prov_mgr_endpoint_register, h]
  · intro h hc
    simp [network_prov_mgr_endpoint_register, h, hc]
  · intro h hc hb
    simp [network_prov_mgr_endpoint_register, h, hc, hb]

theorem endpoint_phase_rules_witness :
    network_prov_mgr_endpoint_create mgrActive "app"
      = (.error .InvalidState, mgrActive) ∧
    network_prov_mgr_endpoint_register mgrIdle "app"
      = (.error .InvalidState, mgrIdle) ∧
    network_prov_mgr_endpoint_register mgrActive "app"
      = (.error .NotFound, mgrActive) ∧
    network_prov_mgr_endpoint_register mgrBound "app"
      = (.error .AlreadyBound, mgrBound) :=
  ⟨(endpoint_phase_rules mgrActive "app").1 (Or.inl rfl),
   (endpoint_phase_rules mgrIdle "app").2.1 (Or.inr rfl),
   (endpoint_phase_rules mgrActive "app").2.2.1 rfl (by decide),
   (endpoint_phase_rules mgrBound "app").2.2.2 rfl (by decide) (by decide)⟩

/-- C8: `network_prov_mgr_disable_auto_stop` succeeds only in state `Idle`
(initialized and strictly before start) — in any other phase it fails with
InvalidState and changes nothing — and on success the accepted cleanup
delay is bounded to [100 ms, 30000 ms], defaulting to 1000 ms when the
requested value is below the minimum and accepted as given when it lies in
the interval. -/
theorem disable_auto_stop_rules (m : Mgr) (d : Nat) :
    (m.phase = .Idle →
       100 ≤ (network_prov_mgr_disable_auto_stop m d).2.cleanupDelay ∧
       (network_prov_mgr_disable_auto_stop m d).2.cleanupDelay ≤ 30000 ∧
       (d < 100 → (network_prov_mgr_disable_auto_stop m d).2.cleanupDelay = 1000) ∧
       (100 ≤ d → d ≤ 30000 →
         (network_prov_mgr_disable_auto_stop m d).2.cleanupDelay = d) ∧
       (network_prov_mgr_disable_auto_stop m d).1 = .ok () ∧
       (network_prov_mgr_disable_auto_stop m d).2.autoStopDisabled = true) ∧
    (m.phase ≠ .Idle →
       network_prov_mgr_disable_auto_stop m d = (.error .InvalidState, m)) := by
  constructor
  · intro h
    have he : network_prov_mgr_disable_auto_stop m d
        = (.ok (),
           { m with
               autoStopDisabled := true
               cleanupDelay := (if d < 100 then 1000 else min d 30000) }) := by
      simp [network_prov_mgr_disable_auto_stop, h]
    rw [he]
    by_cases hd : d < 100 <;> simp [hd] <;> omega
  · intro h
    simp [network_prov_mgr_disable_auto_stop, h]

theorem disable_auto_stop_rules_witness :
    (network_prov_mgr_disable_auto_stop mgrIdle 0).2.cleanupDelay = 1000 ∧
    network_prov_mgr_disable_auto_stop mgrActive 500
      = (.error .InvalidState, mgrActive) :=
  ⟨((disable_auto_stop_rules mgrIdle 0).1 rfl).2.2.1 (by decide),
   (disable_auto_stop_rules mgrActive 500).2 (by decide)⟩

theorem assignFrom_snd (ns : List String) : ∀ u : Nat,
    (assignFrom u ns).map Prod.snd = (List.range ns.length).map (fun i => u + i) := by
  induction ns with
  | nil => intro u; simp [assignFrom]
  | cons n rest ih =>
    intro u
    have harith : ∀ i : Nat, u + 1 + i = u + (i + 1) := by intro i; omega
    simp [assignFrom, List.range_succ_eq_map, ih (u + 1), List.map_map,
      Function.comp, harith]

theorem createAll_created (ns : List String) : ∀ m : Mgr, m.phase = .Idle →
    (∀ n ∈ ns, n ∉ m.created.map Prod.fst) → ns.Nodup →
    (createAll m ns).created = m.created ++ assignFrom m.nextUuid ns := by
  induction ns with
  | nil => intro m _ _ _; simp [createAll, assignFrom]
  | cons n rest ih =>
    intro m hph hdisj hnd
    have hc : n ∉ m.created.map Prod.fst := hdisj n (by simp)
    have he : (network_prov_mgr_endpoint_create m n).2
        = { m with created := m.created ++ [(n, m.nextUuid)],
                   nextUuid := m.nextUuid + 1 } := by
      simp [network_prov_mgr_endpoint_create, hph, hc]
    simp only [createAll, assignFrom, he]
    rw [ih
      { m with
          created := m.created ++ [(n, m.nextUuid)]
          nextUuid := m.nextUuid + 1 }
      hph ?_ (List.Nodup.of_cons hnd)]
    · simp [List.append_assoc]
    · intro n' hn'
      simp only [List.map_append, List.mem_append]
      rintro (hmem | hmem)
      · exact hdisj n' (List.mem_cons_of_mem n hn') hmem
      · simp at hmem
        exact (List.Nodup.not_mem hnd) (hmem ▸ hn')

/-- C9: creating any duplicate-free sequence of application endpoints on a
freshly initialized manager assigns them UUIDs sequentially and
monotonically increasing from the base value 0xFF54 in order of creation,
so every assigned UUID is at least 0xFF54 and cannot collide with the low
identifiers of built-in endpoints. -/
theorem app_endpoint_uuid_allocation (sch : Scheme) (pv : Bool)
    (ns : List String) (hnd : ns.Nodup) :
    (createAll (freshMgr sch pv) ns).created.map Prod.snd
      = (List.range ns.length).map (fun i => appUuidBase + i) ∧
    ∀ u ∈ (createAll (freshMgr sch pv) ns).created.map Prod.snd,
      appUuidBase ≤ u := by
  have h := createAll_created ns (freshMgr sch pv) rfl
    (by intro n' _; simp [freshMgr, network_prov_mgr_init, initialMgr]) hnd
  have hfresh : (freshMgr sch pv).created = [] := rfl
  have hbase : (freshMgr sch pv).nextUuid = appUuidBase := rfl
  rw [h, hfresh, hbase, List.nil_append, assignFrom_snd]
  refine ⟨rfl, ?_⟩
  intro u hu
  simp only [List.mem_map, List.mem_range] at hu
  obtain ⟨i, -, rfl⟩ := hu
  omega

theorem app_endpoint_uuid_allocation_witness :
    (createAll (freshMgr ⟨true, true⟩ false) ["a", "b", "c"]).created.map Prod.snd
      = (List.range (["a", "b", "c"] : List String).length).map
          (fun i => appUuidBase + i) ∧
    ∀ u ∈ (createAll (freshMgr ⟨true, true⟩ false)
        ["a", "b", "c"]).created.map Prod.snd, appUuidBase ≤ u :=
  app_endpoint_uuid_allocation ⟨true, true⟩ false ["a", "b", "c"] (by decide)

/-- C10: a start call from `Idle` with a working scheme succeeds, emits
START and activates the session even when the device is already provisioned
(the provision-state query yields true), and it resets the recorded
provision state: right after the call the query yields false, irrespective
of the state before the call. -/
theorem start_resets_provision_state (m : Mgr)
    (h1 : m.phase = .Idle) (h2 : m.scheme.startOk = true)
    (h3 : network_prov_mgr_is_wifi_provisioned m = true) :
    (network_prov_mgr_start_provisioning m).res = .ok () ∧
    (network_prov_mgr_start_provisioning m).sigs = [.START] ∧
    (network_prov_mgr_start_provisioning m).mgr.phase = .Active ∧
    network_prov_mgr_is_wifi_provisioned
      (network_prov_mgr_start_provisioning m).mgr = false := by
  simp [network_prov_mgr_start_provisioning,
    network_prov_mgr_is_wifi_provisioned, h1, h2]

theorem start_resets_provision_state_witness :
    (network_prov_mgr_start_provisioning
        { initialMgr ⟨true, true⟩ true with phase := .Idle }).res = .ok () ∧
    (network_prov_mgr_start_provisioning
        { initialMgr ⟨true, true⟩ true with phase := .Idle }).sigs = [.START] ∧
    (network_prov_mgr_start_provisioning
        { initialMgr ⟨true, true⟩ true with phase := .Idle }).mgr.phase
      = .Active ∧
    network_prov_mgr_is_wifi_provisioned
      (network_prov_mgr_start_provisioning
        { initialMgr ⟨true, true⟩ true with phase := .Idle }).mgr = false :=
  start_resets_provision_state
    { initialMgr ⟨true, true⟩ true with phase := .Idle } rfl rfl rfl
